import Mathlib

/-!
Verification of the acquisitions user-management backend.

The sources embedded here are:
* `src/services/users.services.js` and its fuller variant (the service layer:
  `getAllUsers`, `getUserById`, `updateUser`, `deleteUser`);
* `src/controllers/users.controller.js` (the HTTP handlers);
* `src/routes/users.routes.js` (the router wiring `authenticateToken` in
  front of the protected handlers);
* `src/middleware/auth.middleware.js` (`authenticateToken`);
* `src/validations/users.validation.js` (`userIdSchema`, `updateUserSchema`;
  the file is appended to the repository README), including `parseInt`
  id parsing and the trim/lowercase transforms; only zod's own `email()`
  format validator is third-party library code and is approximated.

The database is modelled as a list of user rows; each service operation is a
pure function from the store (plus a clock value for `new Date()`) to an
`Except` outcome and the successor store.  Roles are kept as strings, as in
the source, which compares them with ad hoc string equality.
-/

/-- A stored user row (table `users`): id, name, email, password hash, role,
timestamps.  Timestamps are abstract `Nat` clock values. -/
structure User where
  id : Nat
  name : String
  email : String
  password : String
  role : String
  createdAt : Nat
  updatedAt : Nat
  deriving Repr, DecidableEq

/-- The public projection selected by every service query:
`{id, name, email, role, createdAt, updatedAt}` — no password column. -/
structure PublicUser where
  id : Nat
  name : String
  email : String
  role : String
  createdAt : Nat
  updatedAt : Nat
  deriving Repr, DecidableEq

/-- The column list passed to `.select(...)`/`.returning(...)` in the service
layer: every field of the row except the password. -/
def publicProj (u : User) : PublicUser :=
  { id := u.id, name := u.name, email := u.email, role := u.role,
    createdAt := u.createdAt, updatedAt := u.updatedAt }

/-- `deleteUser`'s `.returning` column list: `{id, name, email, role}`. -/
structure DeletedUser where
  id : Nat
  name : String
  email : String
  role : String
  deriving Repr, DecidableEq

def deletedProj (u : User) : DeletedUser :=
  { id := u.id, name := u.name, email := u.email, role := u.role }

/-- The two error messages thrown by the service layer:
`new Error('User not found')` and `new Error('Email already exists')`. -/
inductive ServiceErr where
  | userNotFound
  | emailExists
  deriving Repr, DecidableEq

/-- The validated update payload: each of `name`, `email`, `role` optional. -/
structure Updates where
  name : Option String
  email : Option String
  role : Option String
  deriving Repr, DecidableEq

/-- `db.select().from(users).where(eq(users.id, id))`: the rows whose id
column equals `id`, in table order. -/
def selectById (store : List User) (id : Nat) : List User :=
  store.filter (fun u => u.id == id)

/-- Service `getAllUsers`: selects the public projection of every row.
No pagination, no filtering. -/
def getAllUsers (store : List User) : List PublicUser :=
  store.map publicProj

/-- Service `getUserById(id)`: selects by id; throws `'User not found'` when
the result set is empty, else returns `result[0]`. -/
def getUserById (store : List User) (id : Nat) : Except ServiceErr PublicUser :=
  match selectById store id with
  | [] => .error .userNotFound
  | u :: _ => .ok (publicProj u)

/-- JS truthiness of `updates.email` / `updates.role` for a validated string
field: present and non-empty. -/
def fieldTruthy (f : Option String) : Bool :=
  match f with
  | none => false
  | some s => s ≠ ""

/-- The `{...updates, updatedAt: new Date()}` merge applied by
`db.update(users).set(updateData)`: present fields overwrite, `updatedAt` is
refreshed, `createdAt` and `password` are untouched. -/
def applyUpdates (u : User) (updates : Updates) (now : Nat) : User :=
  { u with
    name := updates.name.getD u.name,
    email := updates.email.getD u.email,
    role := updates.role.getD u.role,
    updatedAt := now }

/-- Service `updateUser(id, updates)`:
1. `getUserById(id)` — propagates `'User not found'`;
2. if `updates.email && updates.email !== existingUser.email`, selects rows
   with `eq(users.email, updates.email)` (exact string equality) and throws
   `'Email already exists'` when any exist;
3. writes the merged row with a fresh `updatedAt` for every row matching the
   id and returns the first updated row's public projection, paired here with
   the successor store. -/
def updateUser (store : List User) (now : Nat) (id : Nat) (updates : Updates) :
    Except ServiceErr (PublicUser × List User) :=
  match getUserById store id with
  | .error e => .error e
  | .ok existingUser =>
    let conflict : Bool :=
      match updates.email with
      | none => false
      | some e =>
        if e = "" then false
        else if e = existingUser.email then false
        else (store.filter (fun u => u.email == e)).length > 0
    if conflict then
      .error .emailExists
    else
      let newStore := store.map (fun u =>
        if u.id == id then applyUpdates u updates now else u)
      match selectById newStore id with
      | [] => .error .userNotFound
      | u :: _ => .ok (publicProj u, newStore)

/-- Service `deleteUser(id)`: `getUserById(id)` to confirm existence
(propagating `'User not found'`), then `db.delete(users).where(eq(users.id,
id))` returning the deleted row's `{id, name, email, role}` fields, paired
here with the successor store. -/
def deleteUser (store : List User) (id : Nat) :
    Except ServiceErr (DeletedUser × List User) :=
  match getUserById store id with
  | .error e => .error e
  | .ok _ =>
    let newStore := store.filter (fun u => !(u.id == id))
    match selectById store id with
    | [] => .error .userNotFound
    | u :: _ => .ok (deletedProj u, newStore)

example :
    getUserById [⟨1, "a", "a@x.com", "p", "user", 0, 0⟩] 1 =
      .ok ⟨1, "a", "a@x.com", "user", 0, 0⟩ := by rfl

example :
    (updateUser [⟨1, "a", "a@x.com", "p", "user", 0, 0⟩,
                 ⟨2, "b", "b@x.com", "q", "user", 0, 0⟩] 5 1
      ⟨none, some "b@x.com", none⟩) = .error .emailExists := by rfl

example :
    (deleteUser [⟨1, "a", "a@x.com", "p", "user", 0, 0⟩] 1) =
      .ok (⟨1, "a", "a@x.com", "user"⟩, []) := by rfl

/-- A JSON response body; each field is `some _` exactly when the handler
includes that key.  Fields appearing in the controllers: `message`, `error`,
`details` (formatted validation errors), `user`, `users`, `count`,
`deletedUser`. -/
structure ResBody where
  message : Option String := none
  error : Option String := none
  details : Option String := none
  user : Option PublicUser := none
  users : Option (List PublicUser) := none
  count : Option Nat := none
  deletedUser : Option DeletedUser := none
  deriving Repr, DecidableEq

/-- An HTTP response: status code and JSON body. -/
structure Response where
  status : Nat
  body : ResBody
  deriving Repr, DecidableEq

/-- The token claims decoded by `jwttoken.verify` and stored on `req.user`:
`{id, email, role}`. -/
structure Actor where
  id : Nat
  email : String
  role : String
  deriving Repr, DecidableEq

/-- The state of the `token` cookie on a request: absent, present but failing
verification, or verifying to claims. -/
inductive TokenState where
  | missing
  | invalid
  | valid (claims : Actor)
  deriving Repr, DecidableEq

/-- Middleware `authenticateToken` (src/middleware/auth.middleware.js): no
cookie → 401 `No token provided`; verification failure → 401 `Invalid or
expired token`; otherwise `req.user := decoded` and the chain continues.
Token verification itself (`jwttoken.verify`, in src/utils/jwt.js, absent
from the sources) is abstracted into `TokenState`. -/
def authenticateToken (t : TokenState) : Except Response Actor :=
  match t with
  | .missing =>
    .error { status := 401,
             body := { error := some "Unauthorized",
                       message := some "No token provided" } }
  | .invalid =>
    .error { status := 401,
             body := { error := some "Unauthorized",
                       message := some "Invalid or expired token" } }
  | .valid a => .ok a

/-- Decimal digit value of a character, if any. -/
def digitVal (c : Char) : Option Nat :=
  if 48 ≤ c.toNat ∧ c.toNat ≤ 57 then some (c.toNat - 48) else none

/-- JavaScript whitespace as skipped by `parseInt` and removed by
`String.prototype.trim`. -/
def isWsChar (c : Char) : Bool :=
  c = ' ' ∨ c = '\t' ∨ c = '\n' ∨ c = '\r'

/-- The leading decimal-digit run of a character list, as consumed by
`parseInt(_, 10)`: `none` when the list starts with no digit (NaN). -/
def leadingDigits : List Char → Option Nat → Option Nat
  | [], acc => acc
  | c :: cs, acc =>
    match digitVal c with
    | none => acc
    | some d => leadingDigits cs (some (acc.getD 0 * 10 + d))

/-- `parseInt(val, 10)`: skip leading whitespace, take an optional sign, then
the leading digit run; NaN (`none`) when no digit follows. -/
def jsParseInt (s : String) : Option Int :=
  match s.data.dropWhile isWsChar with
  | '+' :: rest => (leadingDigits rest none).map Int.ofNat
  | '-' :: rest => (leadingDigits rest none).map (fun n => -(n : Int))
  | rest => (leadingDigits rest none).map Int.ofNat

/-- `userIdSchema` (src/validations/users.validation.js, embedded in the
repository README): `z.string().min(1)`, transform `parseInt(val, 10)`,
refine `!isNaN(val) && val > 0`.  Note `parseInt` accepts digit-prefixed
strings such as `12abc` (value 12) and leading whitespace. -/
def validateUserId (s : String) : Option Nat :=
  if s.data.isEmpty then none
  else
    match jsParseInt s with
    | none => none
    | some v => if 0 < v then some v.toNat else none

/-- `String.prototype.trim`: strip whitespace from both ends. -/
def jsTrim (s : String) : String :=
  ⟨((s.data.dropWhile isWsChar).reverse.dropWhile isWsChar).reverse⟩

/-- ASCII lowercasing of one character, as `String.prototype.toLowerCase`
acts on ASCII. -/
def asciiLowerChar (c : Char) : Char :=
  if 65 ≤ c.toNat ∧ c.toNat ≤ 90 then Char.ofNat (c.toNat + 32) else c

/-- `String.prototype.toLowerCase` restricted to ASCII, as applied by
`updateUserSchema`'s `.toLowerCase()`. -/
def asciiLower (s : String) : String :=
  ⟨s.data.map asciiLowerChar⟩

/-- Modelled from the spec: zod's `z.string().email()` validator — library
code, not part of this repository.  Per the spec's "valid email format":
exactly one `@` with a non-empty local part, a non-empty dotted domain not
starting or ending in `.`, and no whitespace. -/
def validEmailFormat (s : String) : Bool :=
  let l := s.data
  let lp := l.takeWhile (fun c => c ≠ '@')
  match l.dropWhile (fun c => c ≠ '@') with
  | '@' :: dom =>
    !(lp.isEmpty) && !(dom.isEmpty) && !(dom.contains '@') &&
      dom.contains '.' && !(l.any isWsChar) &&
      dom.head? ≠ some '.' && dom.getLast? ≠ some '.'
  | _ => false

/-- The `name` rule of `updateUserSchema` (users.validation.js):
`z.string().trim().min(2).max(255)` — the bound applies to, and the output
is, the trimmed string. -/
def parseName (s : String) : Option String :=
  let t := jsTrim s
  if 2 ≤ t.data.length ∧ t.data.length ≤ 255 then some t else none

/-- The `email` rule of `updateUserSchema` (users.validation.js):
`z.string().email().max(255).toLowerCase().trim()` — format and length are
checked on the input, the output is lowercased and trimmed. -/
def parseEmail (s : String) : Option String :=
  if validEmailFormat s ∧ s.data.length ≤ 255 then
    some (jsTrim (asciiLower s))
  else none

/-- The `role` rule of `updateUserSchema` (users.validation.js):
`z.enum(['user', 'admin'])`. -/
def parseRole (s : String) : Option String :=
  if s = "user" ∨ s = "admin" then some s else none

/-- Validate one optional field: absent is fine, present must parse. -/
def parseField (f : Option String) (p : String → Option String) :
    Option (Option String) :=
  match f with
  | none => some none
  | some s =>
    match p s with
    | none => none
    | some t => some (some t)

/-- `updateUserSchema.safeParse` (users.validation.js): every provided field
must satisfy its rule, at least one field must be provided, and the result
carries the transformed (trimmed, lowercased) values. -/
def parseUpdateBody (b : Updates) : Option Updates :=
  match parseField b.name parseName with
  | none => none
  | some n =>
    match parseField b.email parseEmail with
    | none => none
    | some e =>
      match parseField b.role parseRole with
      | none => none
      | some r =>
        if n.isSome ∨ e.isSome ∨ r.isSome then some ⟨n, e, r⟩ else none

/-- The 400 body built by the controllers:
`{error: 'Validation failed', details: formatValidationErrors(...)}`.
The `details` text comes from src/utils/format.js (absent from the sources)
and is abstracted to a constant string. -/
def validationFailedBody : ResBody :=
  { error := some "Validation failed", details := some "invalid input" }

/-- Controller `getUserById` (src/controllers/users.controller.js): validate
the id (400 on failure), call the service, map `'User not found'` → 404
`{error}`, other exceptions → 500 `{message}`, success → 200
`{message, user}`.  It never consults `req.user`. -/
def getUserByIdHandler (store : List User) (rawId : String) : Response :=
  match validateUserId rawId with
  | none => { status := 400, body := validationFailedBody }
  | some id =>
    match getUserById store id with
    | .error .userNotFound =>
      { status := 404, body := { error := some "User not found" } }
    | .error .emailExists =>
      { status := 500, body := { message := some "Error getting user" } }
    | .ok u =>
      { status := 200,
        body := { message := some "Successfully fetched user",
                  user := some u } }

/-- Controller `updateUser` (src/controllers/users.controller.js), in source
order: validate id (400), validate body (400), `req.user` present (401),
ownership (`role !== 'admin' && id !== target` → 403), role escalation
(`updates.role && role !== 'admin'` → 403), then the service call — on
`updateValidationResult.data`, the transformed values — with
`'User not found'` → 404, `'Email already exists'` → 409, success → 200
`{message, user}`.  Returns the response and the resulting store. -/
def updateUserHandler (store : List User) (now : Nat) (reqUser : Option Actor)
    (rawId : String) (body : Updates) : Response × List User :=
  match validateUserId rawId with
  | none => ({ status := 400, body := validationFailedBody }, store)
  | some id =>
    match parseUpdateBody body with
    | none => ({ status := 400, body := validationFailedBody }, store)
    | some updates =>
      match reqUser with
      | none =>
        ({ status := 401,
           body := { error := some "Unauthorized",
                     message := some "Authentication required" } }, store)
      | some actor =>
        if actor.role ≠ "admin" && actor.id ≠ id then
          ({ status := 403,
             body := { error := some "Forbidden",
                       message :=
                         some "You can only update your own information" } },
           store)
        else if fieldTruthy updates.role && actor.role ≠ "admin" then
          ({ status := 403,
             body := { error := some "Forbidden",
                       message :=
                         some "Only administrators can change user roles" } },
           store)
        else
          match updateUser store now id updates with
          | .error .userNotFound =>
            ({ status := 404, body := { error := some "User not found" } },
             store)
          | .error .emailExists =>
            ({ status := 409, body := { error := some "Email already exists" } },
             store)
          | .ok (u, newStore) =>
            ({ status := 200,
               body := { message := some "User updated successfully",
                         user := some u } }, newStore)

/-- Controller `deleteUser` (src/controllers/users.controller.js), in source
order: validate id (400), `req.user` present (401), ownership (403), then the
service call with `'User not found'` → 404, other exceptions → 500
`{message}`, success → 200 `{message, deletedUser}`. -/
def deleteUserHandler (store : List User) (reqUser : Option Actor)
    (rawId : String) : Response × List User :=
  match validateUserId rawId with
  | none => ({ status := 400, body := validationFailedBody }, store)
  | some id =>
    match reqUser with
    | none =>
      ({ status := 401,
         body := { error := some "Unauthorized",
                   message := some "Authentication required" } }, store)
    | some actor =>
      if actor.role ≠ "admin" && actor.id ≠ id then
        ({ status := 403,
           body := { error := some "Forbidden",
                     message :=
                       some "You can only delete your own account" } }, store)
      else
        match deleteUser store id with
        | .error .userNotFound =>
          ({ status := 404, body := { error := some "User not found" } },
           store)
        | .error .emailExists =>
          ({ status := 500, body := { message := some "Error deleting user" } },
           store)
        | .ok (d, newStore) =>
          ({ status := 200,
             body := { message := some "User deleted successfully",
                       deletedUser := some d } }, newStore)

/-- Controller `fetchAllUsers`: on a successful database read, 200
`{message, users, count}`; on a thrown database error, 500 `{message}` with
no `error` field. -/
def fetchAllUsersHandler (dbResult : Except Unit (List User)) : Response :=
  match dbResult with
  | .ok store =>
    { status := 200,
      body := { message := some "Successfully fetched all users",
                users := some (getAllUsers store),
                count := some (getAllUsers store).length } }
  | .error _ =>
    { status := 500, body := { message := some "Error getting all users" } }

/-- Route `GET /users` (src/routes/users.routes.js):
`router.get('/', fetchAllUsers)` — no middleware, so the token state is
ignored entirely. -/
def getUsersRoute (t : TokenState) (dbResult : Except Unit (List User)) :
    Response :=
  match t with
  | _ => fetchAllUsersHandler dbResult

/-- Route `GET /users/:id`: `router.get('/:id', authenticateToken,
getUserById)` — middleware first, controller second. -/
def getUserByIdRoute (t : TokenState) (store : List User) (rawId : String) :
    Response :=
  match authenticateToken t with
  | .error r => r
  | .ok _ => getUserByIdHandler store rawId

/-- Route `PUT /users/:id`: `router.put('/:id', authenticateToken,
updateUser)` — middleware first, controller second. -/
def putUserRoute (t : TokenState) (store : List User) (now : Nat)
    (rawId : String) (body : Updates) : Response × List User :=
  match authenticateToken t with
  | .error r => (r, store)
  | .ok a => updateUserHandler store now (some a) rawId body

/-- Route `DELETE /users/:id`: `router.delete('/:id', authenticateToken,
deleteUser)` — middleware first, controller second. -/
def deleteUserRoute (t : TokenState) (store : List User) (rawId : String) :
    Response × List User :=
  match authenticateToken t with
  | .error r => (r, store)
  | .ok a => deleteUserHandler store (some a) rawId

/-! ## Helper lemmas -/

lemma getUserById_of_select (store : List User) (id : Nat) (u : User)
    (rest : List User) (hsel : selectById store id = u :: rest) :
    getUserById store id = .ok (publicProj u) := by
  unfold getUserById
  rw [hsel]

lemma applyUpdates_id (u : User) (b : Updates) (now : Nat) :
    (applyUpdates u b now).id = u.id := rfl

lemma filter_id_map_id_pres (f : User → User) (hf : ∀ u, (f u).id = u.id)
    (store : List User) (id : Nat) :
    (store.map f).filter (fun u => u.id == id) =
      (store.filter (fun u => u.id == id)).map f := by
  induction store with
  | nil => rfl
  | cons v tl ih =>
    simp only [List.map_cons, List.filter_cons, hf v]
    cases hv : (v.id == id) <;> simp [ih]

lemma selectById_updated (store : List User) (id : Nat) (b : Updates)
    (now : Nat) :
    selectById
        (store.map (fun u => if u.id == id then applyUpdates u b now else u))
        id =
      (selectById store id).map
        (fun u => if u.id == id then applyUpdates u b now else u) := by
  unfold selectById
  apply filter_id_map_id_pres
  intro u
  cases h : (u.id == id) <;> simp [applyUpdates_id]

lemma updateUser_conflict (store : List User) (now id : Nat) (b : Updates)
    (e : String) (u : User) (rest : List User)
    (hsel : selectById store id = u :: rest)
    (hem : b.email = some e) (hne : e ≠ "") (hdiff : e ≠ u.email)
    (hex : ∃ v ∈ store, v.email = e) :
    updateUser store now id b = .error .emailExists := by
  unfold updateUser
  rw [getUserById_of_select store id u rest hsel]
  simp only [hem, publicProj]
  have hlen : (store.filter (fun v => v.email == e)).length > 0 := by
    obtain ⟨v, hv, hve⟩ := hex
    have : v ∈ store.filter (fun w => w.email == e) := by
      simp [List.mem_filter, hv, hve]
    calc 0 < 1 := Nat.zero_lt_one
      _ ≤ _ := List.length_pos.mpr (List.ne_nil_of_mem this)
  simp [hne, hdiff, hlen]

lemma updateUser_ok_of_self_email (store : List User) (now id : Nat)
    (b : Updates) (u : User) (rest : List User)
    (hsel : selectById store id = u :: rest)
    (hem : b.email = some u.email) :
    (updateUser store now id b).isOk = true := by
  unfold updateUser
  rw [getUserById_of_select store id u rest hsel]
  simp only [hem, publicProj]
  rw [selectById_updated, hsel]
  simp [Except.isOk, Except.toBool, ite_self]

lemma parseRole_ne_empty (s t : String) (h : parseRole s = some t) :
    t ≠ "" := by
  unfold parseRole at h
  split at h
  · rename_i hs
    injection h with h
    subst h
    rcases hs with hs | hs <;> simp [hs]
  · exact absurd h (by simp)

lemma parsed_role_truthy (b v : Updates)
    (hbody : parseUpdateBody b = some v) (hrole : v.role.isSome) :
    fieldTruthy v.role = true := by
  unfold parseUpdateBody at hbody
  cases hn : parseField b.name parseName with
  | none => rw [hn] at hbody; simp at hbody
  | some n =>
    cases he : parseField b.email parseEmail with
    | none => rw [hn, he] at hbody; simp at hbody
    | some e =>
      cases hr : parseField b.role parseRole with
      | none => rw [hn, he, hr] at hbody; simp at hbody
      | some r =>
        rw [hn, he, hr] at hbody
        simp only [] at hbody
        split at hbody
        · injection hbody with hv
          subst hv
          simp only [] at hrole
          obtain ⟨t, ht⟩ := Option.isSome_iff_exists.mp hrole
          rw [ht]
          rw [ht] at hr
          unfold parseField at hr
          split at hr
          · simp at hr
          · rename_i s hbr
            split at hr
            · simp at hr
            · rename_i t2 hp
              simp only [Option.some.injEq] at hr
              rw [hr] at hp
              simp [fieldTruthy, parseRole_ne_empty s t hp]
        · exact absurd hbody (by simp)

/-! ## Claims -/

/-- C1: for a PUT /users/:id request with a valid id and a body the schema
validates to data that includes a role field, a non-admin actor always
receives 403 with the store untouched (whether or not the target is their own
id), while an admin actor is never blocked by validation, authentication or
authorization (the request reaches the service, whose outcome is 200, 404 or
409). -/
theorem update_role_gating (store : List User) (now : Nat) (actor : Actor)
    (rawId : String) (id : Nat) (body updates : Updates)
    (hid : validateUserId rawId = some id)
    (hbody : parseUpdateBody body = some updates)
    (hrole : updates.role.isSome) :
    (actor.role ≠ "admin" →
      (updateUserHandler store now (some actor) rawId body).1.status = 403 ∧
      (updateUserHandler store now (some actor) rawId body).2 = store) ∧
    (actor.role = "admin" →
      (updateUserHandler store now (some actor) rawId body).1.status = 200 ∨
      (updateUserHandler store now (some actor) rawId body).1.status = 404 ∨
      (updateUserHandler store now (some actor) rawId body).1.status = 409) := by
  unfold updateUserHandler
  simp only [hid, hbody]
  constructor
  · intro hna
    by_cases hown : actor.id = id
    · rw [if_neg (by simp [hown])]
      rw [if_pos (by simp [parsed_role_truthy body updates hbody hrole, hna])]
      exact ⟨rfl, rfl⟩
    · rw [if_pos (by simp [hna, hown])]
      exact ⟨rfl, rfl⟩
  · intro ha
    rw [if_neg (by simp [ha]), if_neg (by simp [ha])]
    cases hres : updateUser store now id updates with
    | error e => cases e <;> simp
    | ok p => simp

/-- Witness for `update_role_gating` at a concrete input: a non-admin actor
sending a role field for their own id receives 403. -/
theorem update_role_gating_witness :
    (updateUserHandler [] 0 (some ⟨1, "a@x.com", "user"⟩) "1"
        ⟨none, none, some "admin"⟩).1.status = 403 :=
  ((update_role_gating [] 0 ⟨1, "a@x.com", "user"⟩ "1" 1
      ⟨none, none, some "admin"⟩ ⟨none, none, some "admin"⟩
      (by decide) (by decide) (by decide)).1
    (by decide)).1

/-- C2 counterexample: with `a@x.com` (id 1) and `B@x.com` (id 2) stored, an
admin's PUT /users/1 carrying email `B@x.com` — exactly the email owned by
the different existing user 2 — is answered 200 and the row is written: the
schema lowercases the email to `b@x.com` before the service's exact-match
conflict check, which then finds nothing. -/
theorem update_email_conflict_cex :
    parseEmail "B@x.com" = some "b@x.com" ∧
    (updateUserHandler
        [⟨1, "a", "a@x.com", "p", "user", 0, 0⟩,
         ⟨2, "b", "B@x.com", "q", "user", 0, 0⟩] 5
        (some ⟨9, "adm@x.com", "admin"⟩) "1"
        ⟨none, some "B@x.com", none⟩).1.status = 200 ∧
    (updateUserHandler
        [⟨1, "a", "a@x.com", "p", "user", 0, 0⟩,
         ⟨2, "b", "B@x.com", "q", "user", 0, 0⟩] 5
        (some ⟨9, "adm@x.com", "admin"⟩) "1"
        ⟨none, some "B@x.com", none⟩).2 =
      [⟨1, "a", "b@x.com", "p", "user", 0, 5⟩,
       ⟨2, "b", "B@x.com", "q", "user", 0, 0⟩] :=
  ⟨rfl, rfl, rfl⟩

/-- C2 amended: for every update request whose schema-validated email (the
schema lowercases and trims the submitted one) differs from the target's
stored email and exactly equals the email stored on some row, the service
signals `Email already exists`, the handler responds 409, and the store
(hence the target row, `updatedAt` included) is unmodified. -/
theorem update_email_conflict_amended (store : List User) (now : Nat)
    (u : User) (rest : List User) (id : Nat) (body updates : Updates)
    (e : String) (actor : Actor) (rawId : String)
    (hsel : selectById store id = u :: rest)
    (hbody : parseUpdateBody body = some updates)
    (hem : updates.email = some e) (hne : e ≠ "") (hdiff : e ≠ u.email)
    (hex : ∃ v ∈ store, v.email = e)
    (hid : validateUserId rawId = some id)
    (hadm : actor.role = "admin") :
    updateUser store now id updates = .error .emailExists ∧
    (updateUserHandler store now (some actor) rawId body).1.status = 409 ∧
    (updateUserHandler store now (some actor) rawId body).2 = store := by
  have hsvc := updateUser_conflict store now id updates e u rest hsel hem hne
    hdiff hex
  refine ⟨hsvc, ?_, ?_⟩ <;>
  · unfold updateUserHandler
    simp only [hid, hbody]
    rw [if_neg (by simp [hadm]), if_neg (by simp [hadm]), hsvc]

/-- Witness for `update_email_conflict_amended` at a concrete input: the
submitted email `C@x.com` validates to `c@x.com`, which user 1 stores
exactly, so updating user 2 with it yields 409. -/
theorem update_email_conflict_amended_witness :
    updateUser
        [⟨1, "c", "c@x.com", "p", "user", 0, 0⟩,
         ⟨2, "d", "d@x.com", "q", "user", 0, 0⟩] 3 2
        ⟨none, some "c@x.com", none⟩ = .error .emailExists :=
  (update_email_conflict_amended
    [⟨1, "c", "c@x.com", "p", "user", 0, 0⟩,
     ⟨2, "d", "d@x.com", "q", "user", 0, 0⟩] 3
    ⟨2, "d", "d@x.com", "q", "user", 0, 0⟩ [] 2
    ⟨none, some "C@x.com", none⟩ ⟨none, some "c@x.com", none⟩
    "c@x.com" ⟨9, "z@x.com", "admin"⟩ "2"
    (by rfl) (by rfl) (by rfl) (by decide) (by decide)
    ⟨⟨1, "c", "c@x.com", "p", "user", 0, 0⟩, by decide⟩
    (by decide) (by decide)).1

/-- C10: re-submitting a user's own current email never trips the conflict
check — the `updates.email !== existingUser.email` guard skips it — and the
update proceeds. -/
theorem self_email_update_proceeds (store : List User) (now id : Nat)
    (b : Updates) (u : User) (rest : List User)
    (hsel : selectById store id = u :: rest)
    (hem : b.email = some u.email) :
    updateUser store now id b ≠ .error .emailExists ∧
    (updateUser store now id b).isOk = true := by
  have h := updateUser_ok_of_self_email store now id b u rest hsel hem
  refine ⟨?_, h⟩
  intro hc
  rw [hc] at h
  simp [Except.isOk, Except.toBool] at h

/-- Witness for `self_email_update_proceeds` at a concrete input. -/
theorem self_email_update_proceeds_witness :
    (updateUser [⟨1, "a", "a@x.com", "p", "user", 0, 0⟩] 7 1
        ⟨none, some "a@x.com", none⟩).isOk = true :=
  (self_email_update_proceeds [⟨1, "a", "a@x.com", "p", "user", 0, 0⟩] 7 1
    ⟨none, some "a@x.com", none⟩ ⟨1, "a", "a@x.com", "p", "user", 0, 0⟩ []
    (by rfl) (by rfl)).2

/-- The ASCII-lowercased code points of a string, used to state
case-insensitive equality of emails. -/
def toLowerNat (c : Char) : Nat :=
  if 65 ≤ c.toNat ∧ c.toNat ≤ 90 then c.toNat + 32 else c.toNat

/-- Equality of two strings up to ASCII case. -/
def emailsCaseEq (a b : String) : Bool :=
  a.data.map toLowerNat == b.data.map toLowerNat

/-- C5 counterexample: with users `alice@x.com` (id 1) and `bob@x.com`
(id 2) stored, updating user 1's email to `BOB@x.com` — equal to user 2's
email up to ASCII case — is not rejected: the conflict check compares with
exact string equality, finds no match, and the write proceeds. -/
theorem email_case_insensitivity_cex :
    emailsCaseEq "BOB@x.com" "bob@x.com" = true ∧
    updateUser
        [⟨1, "a", "alice@x.com", "p", "user", 0, 0⟩,
         ⟨2, "b", "bob@x.com", "q", "user", 0, 0⟩] 5 1
        ⟨none, some "BOB@x.com", none⟩ =
      .ok (⟨1, "a", "BOB@x.com", "user", 0, 5⟩,
        [⟨1, "a", "BOB@x.com", "p", "user", 0, 5⟩,
         ⟨2, "b", "bob@x.com", "q", "user", 0, 0⟩]) ∧
    updateUser
        [⟨1, "a", "alice@x.com", "p", "user", 0, 0⟩,
         ⟨2, "b", "bob@x.com", "q", "user", 0, 0⟩] 5 1
        ⟨none, some "BOB@x.com", none⟩ ≠ .error .emailExists := by
  refine ⟨by decide, by rfl, ?_⟩
  intro h
  rw [show updateUser
        [⟨1, "a", "alice@x.com", "p", "user", 0, 0⟩,
         ⟨2, "b", "bob@x.com", "q", "user", 0, 0⟩] 5 1
        ⟨none, some "BOB@x.com", none⟩ =
      .ok (⟨1, "a", "BOB@x.com", "user", 0, 5⟩,
        [⟨1, "a", "BOB@x.com", "p", "user", 0, 5⟩,
         ⟨2, "b", "bob@x.com", "q", "user", 0, 0⟩]) from rfl] at h
  exact Except.noConfusion h

/-- C5 amended: email uniqueness at update time is enforced by exact,
case-sensitive string equality: an update changing a user's email is rejected
with `Email already exists` exactly when some stored email is literally equal
to the new one (the validation layer lowercases submitted emails, but stored
emails differing only in case do not trigger the check). -/
theorem email_uniqueness_exact (store : List User) (now id : Nat)
    (b : Updates) (e : String) (u : User) (rest : List User)
    (hsel : selectById store id = u :: rest)
    (hem : b.email = some e) (hne : e ≠ "") (hdiff : e ≠ u.email)
    (hex : ∃ v ∈ store, v.email = e) :
    updateUser store now id b = .error .emailExists :=
  updateUser_conflict store now id b e u rest hsel hem hne hdiff hex

/-- Witness for `email_uniqueness_exact` at a concrete input. -/
theorem email_uniqueness_exact_witness :
    updateUser
        [⟨1, "c", "c@x.com", "p", "user", 0, 0⟩,
         ⟨2, "d", "d@x.com", "q", "user", 0, 0⟩] 3 2
        ⟨some "dd", some "c@x.com", none⟩ = .error .emailExists :=
  email_uniqueness_exact
    [⟨1, "c", "c@x.com", "p", "user", 0, 0⟩,
     ⟨2, "d", "d@x.com", "q", "user", 0, 0⟩] 3 2
    ⟨some "dd", some "c@x.com", none⟩ "c@x.com"
    ⟨2, "d", "d@x.com", "q", "user", 0, 0⟩ []
    (by rfl) (by rfl) (by decide) (by decide)
    ⟨⟨1, "c", "c@x.com", "p", "user", 0, 0⟩, by decide⟩

/-- C3: GET /users/:id is gated only by authentication: with a valid token
the controller never consults the actor (any two actors get identical
responses), and for a valid id the outcome is decided by the store alone —
200 with the user when the id exists, 404 when it does not. -/
theorem get_by_id_auth_only (store : List User) (rawId : String) (id : Nat)
    (a b : Actor) (hid : validateUserId rawId = some id) :
    getUserByIdRoute (.valid a) store rawId =
      getUserByIdRoute (.valid b) store rawId ∧
    (selectById store id ≠ [] →
      (getUserByIdRoute (.valid a) store rawId).status = 200) ∧
    (selectById store id = [] →
      (getUserByIdRoute (.valid a) store rawId).status = 404) := by
  refine ⟨rfl, ?_, ?_⟩
  · intro h
    obtain ⟨u, rest, hc⟩ := List.exists_cons_of_ne_nil h
    simp only [getUserByIdRoute, authenticateToken, getUserByIdHandler, hid,
      getUserById_of_select store id u rest hc]
  · intro h
    simp only [getUserByIdRoute, authenticateToken, getUserByIdHandler,
      getUserById, hid, h]

/-- Witness for `get_by_id_auth_only` at a concrete input. -/
theorem get_by_id_auth_only_witness :
    (getUserByIdRoute (.valid ⟨9, "z@x.com", "user"⟩)
        [⟨1, "a", "a@x.com", "p", "user", 0, 0⟩] "1").status = 200 :=
  (get_by_id_auth_only [⟨1, "a", "a@x.com", "p", "user", 0, 0⟩] "1" 1
    ⟨9, "z@x.com", "user"⟩ ⟨2, "b@x.com", "user"⟩ (by rfl)).2.1
    (by decide)

/-- C4 counterexample: a PUT /users/:id request with no token and a malformed
id (`abc`) receives the middleware's 401, not the claimed 400: the
`authenticateToken` middleware runs before the controller's validation. -/
theorem validation_order_cex :
    validateUserId "abc" = none ∧
    (putUserRoute .missing [] 0 "abc" ⟨none, none, none⟩).1.status = 401 ∧
    ¬ (putUserRoute .missing [] 0 "abc" ⟨none, none, none⟩).1.status = 400 := by
  exact ⟨by rfl, by rfl, by decide⟩

/-- C4 amended: token verification precedes input validation: on PUT and
DELETE /users/:id, a request whose token is missing or invalid receives 401
with the store untouched, no matter how malformed the id or body is —
validation is reached only after authentication succeeds. -/
theorem auth_precedes_validation (store : List User) (now : Nat)
    (rawId : String) (body : Updates) (t : TokenState)
    (ht : t = TokenState.missing ∨ t = TokenState.invalid) :
    (putUserRoute t store now rawId body).1.status = 401 ∧
    (putUserRoute t store now rawId body).2 = store ∧
    (deleteUserRoute t store rawId).1.status = 401 ∧
    (deleteUserRoute t store rawId).2 = store := by
  rcases ht with h | h <;> subst h <;> exact ⟨rfl, rfl, rfl, rfl⟩

/-- Witness for `auth_precedes_validation` at a concrete input. -/
theorem auth_precedes_validation_witness :
    (putUserRoute .invalid [] 0 "abc" ⟨none, none, none⟩).1.status = 401 :=
  (auth_precedes_validation [] 0 "abc" ⟨none, none, none⟩ .invalid
    (Or.inr rfl)).1

lemma selectById_after_delete (store : List User) (id : Nat) :
    selectById (store.filter fun u => !(u.id == id)) id = [] := by
  induction store with
  | nil => rfl
  | cons v tl ih =>
    unfold selectById at *
    cases h : (v.id == id) <;> simp [List.filter_cons, h, ih]

/-- C6: after a successful `deleteUser(id)`, `getUserById(id)` on the
resulting store signals `User not found`, and the handler maps it to 404. -/
theorem delete_then_get_not_found (store : List User) (id : Nat)
    (d : DeletedUser) (store2 : List User) (rawId : String)
    (h : deleteUser store id = .ok (d, store2))
    (hid : validateUserId rawId = some id) :
    getUserById store2 id = .error .userNotFound ∧
    getUserByIdHandler store2 rawId =
      { status := 404, body := { error := some "User not found" } } := by
  have hstore2 : store2 = store.filter (fun u => !(u.id == id)) := by
    unfold deleteUser at h
    cases hg : getUserById store id with
    | error e => rw [hg] at h; exact absurd h (by simp)
    | ok pu =>
      rw [hg] at h
      cases hs : selectById store id with
      | nil => rw [hs] at h; exact absurd h (by simp)
      | cons u rest =>
        rw [hs] at h
        simp only [Except.ok.injEq, Prod.mk.injEq] at h
        exact h.2.symm
  have hget : getUserById store2 id = .error .userNotFound := by
    rw [hstore2]
    unfold getUserById
    rw [selectById_after_delete]
  refine ⟨hget, ?_⟩
  simp only [getUserByIdHandler, hid, hget]

/-- Witness for `delete_then_get_not_found` at a concrete input. -/
theorem delete_then_get_not_found_witness :
    getUserById [] 1 = .error .userNotFound :=
  (delete_then_get_not_found [⟨1, "a", "a@x.com", "p", "user", 0, 0⟩] 1
    ⟨1, "a", "a@x.com", "user"⟩ [] "1" (by rfl) (by rfl)).1

/-- C7: GET /users carries no auth middleware — the token state is ignored —
and on a successful read returns 200 with the public projection of every row
of the table (count included), with no pagination or filtering; the public
projection is independent of the password column. -/
theorem get_all_users_public (t : TokenState) (store : List User) :
    getUsersRoute t (.ok store) = fetchAllUsersHandler (.ok store) ∧
    (getUsersRoute t (.ok store)).status = 200 ∧
    (getUsersRoute t (.ok store)).body.users = some (store.map publicProj) ∧
    (getUsersRoute t (.ok store)).body.count = some store.length ∧
    (∀ (u : User) (p : String),
      publicProj { u with password := p } = publicProj u) := by
  refine ⟨rfl, rfl, rfl, ?_, fun u p => rfl⟩
  simp [getUsersRoute, fetchAllUsersHandler, getAllUsers]

/-- The response-envelope discipline the handlers actually follow: 200
responses carry `message`; failure responses other than 500 carry `error`;
500 responses carry `message` and no `error` field. -/
def envOk (r : Response) : Prop :=
  (r.status = 200 → r.body.message.isSome = true) ∧
  (400 ≤ r.status → r.status ≠ 500 → r.body.error.isSome = true) ∧
  (r.status = 500 → r.body.message.isSome = true ∧ r.body.error = none)

/-- C9 counterexample: the 500 branch of `fetchAllUsers` responds
`{message: 'Error getting all users'}` with no `error` field — a failure
response shaped `{message}`, which the claim rules out. -/
theorem failure_envelope_cex :
    (fetchAllUsersHandler (.error ())).status = 500 ∧
    (fetchAllUsersHandler (.error ())).body.error = none ∧
    (fetchAllUsersHandler (.error ())).body.message =
      some "Error getting all users" :=
  ⟨rfl, rfl, rfl⟩

/-- C9 amended: success responses carry `message` and 400/401/403/404/409
responses carry `error` (401/403 also carry a `message` detail), but the
internal-error branches respond 500 with `{message}` and no `error` field. -/
theorem response_envelope (dbResult : Except Unit (List User))
    (store store2 store3 : List User) (now : Nat)
    (reqUser reqUser2 : Option Actor) (rawId rawId2 rawId3 : String)
    (body : Updates) :
    envOk (fetchAllUsersHandler dbResult) ∧
    envOk (getUserByIdHandler store rawId) ∧
    envOk (updateUserHandler store2 now reqUser rawId2 body).1 ∧
    envOk (deleteUserHandler store3 reqUser2 rawId3).1 := by
  refine ⟨?_, ?_, ?_, ?_⟩
  · unfold envOk fetchAllUsersHandler
    repeat' split
    all_goals simp
  · unfold envOk getUserByIdHandler
    repeat' split
    all_goals simp [validationFailedBody]
  · unfold envOk updateUserHandler
    repeat' split
    all_goals simp [validationFailedBody]
  · unfold envOk deleteUserHandler
    repeat' split
    all_goals simp [validationFailedBody]
